import Mathlib

/-!
# Verification of the gPXE DHCP session engine (src/gpxe/src/net/udp/dhcp.c)

A shallow embedding of the DHCP client session state machine: packet
construction (`create_dhcp_packet`, `create_dhcp_request`), the transaction-id
derivation (`dhcp_xid`), and the event-driven session engine
(`dhcp_deliver_raw`, `dhcp_timer_expired`, `dhcp_send_request`,
`dhcp_finished`, `dhcp_job_kill`).

External collaborators (datagram transport, allocator, retry-timer primitive,
settings-registration tree, tick clock) are modelled by an `Env` record of
outcomes supplied per event; observable side effects (packets handed to the
transport, settings registration, session completion) are collected in an
`Output` record.

DHCP option TLV blocks are modelled as association lists from (possibly
encapsulated) tag to raw byte list, matching the abstract keyed store/fetch
API (`dhcppkt_store` / `dhcppkt_fetch`) the engine consumes.
-/

namespace DhcpModel

/-! ## Constants

DHCP message types, BOOTP opcodes, option tags and error codes.  The
message-type values and standard option tags are the RFC 2132 values used
throughout `dhcp.c`; the gPXE-encapsulated tags (`DHCP_EB_*`) and the
constants `PROXYDHCP_WAIT_TIME`, `DHCP_MIN_LEN` come from the gPXE headers
(`gpxe/dhcp.h`), which are not part of this source snapshot: their exact
numeric values are irrelevant to the engine logic (only distinctness of tags
matters), so representative concrete values are used. -/

def DHCPDISCOVER : Nat := 1
def DHCPOFFER : Nat := 2
def DHCPREQUEST : Nat := 3
def DHCPDECLINE : Nat := 4
def DHCPACK : Nat := 5
def DHCPNAK : Nat := 6
def DHCPRELEASE : Nat := 7
def DHCPINFORM : Nat := 8

def BOOTP_REQUEST : Nat := 1
def BOOTP_REPLY : Nat := 2

/-- BOOTP `flags` broadcast bit (network byte order 0x8000). -/
def BOOTP_FL_BROADCAST : Nat := 0x8000

def DHCP_REQUESTED_ADDRESS : Nat := 50
def DHCP_MESSAGE_TYPE : Nat := 53
def DHCP_SERVER_IDENTIFIER : Nat := 54
def DHCP_CLIENT_ID : Nat := 61
def DHCP_CLIENT_UUID : Nat := 97
def DHCP_EB_ENCAP : Nat := 175
/-- gPXE-encapsulated priority option tag (`DHCP_ENCAP_OPT(DHCP_EB_ENCAP, ...)`). -/
def DHCP_EB_PRIORITY : Nat := 0xAF01
/-- gPXE-encapsulated copy of the offered address. -/
def DHCP_EB_YIADDR : Nat := 0xAF02
/-- gPXE-encapsulated "no ProxyDHCP" flag. -/
def DHCP_EB_NO_PROXYDHCP : Nat := 0xAFB0
/-- gPXE-encapsulated bus-identification option. -/
def DHCP_EB_BUS_ID : Nat := 0xAFB1

/-- Error code magnitudes (the engine returns their negations). -/
def ENOMEM : Int := 12
def EINVAL : Int := 22
def ENOSPC : Int := 28
def ETIMEDOUT : Int := 110
def ECANCELED : Int := 125

/-- Size of `struct dhcphdr` (fixed BOOTP header through the magic cookie). -/
def dhcphdrSize : Nat := 240

/-- Minimum DHCP packet length; size of the transmit buffer allocated by
`dhcp_send_request`. -/
def DHCP_MIN_LEN : Nat := 552

/-- Fixed ProxyDHCP wait window, in ticks (`PROXYDHCP_WAIT_TIME`). -/
def PROXYDHCP_WAIT_TIME : Nat := 2000

/-! ## Option store / fetch

`dhcppkt_store` replaces any previous binding of the tag; modelled by
prepending (lookup finds the newest binding first).  `dhcppkt_fetch` into a
byte-sized default-zero variable yields the first byte of the option when
present and non-empty, and leaves the zero default otherwise.  A fetch of a
4-byte value succeeds exactly when the option is present with length 4 (the
callers check the returned option length against `sizeof`). -/

abbrev Options := List (Nat × List Nat)

def optStore (opts : Options) (tag : Nat) (value : List Nat) : Options :=
  (tag, value) :: opts

def optLookup (opts : Options) (tag : Nat) : Option (List Nat) :=
  List.lookup tag opts

/-- Fetch a single byte with default 0 (pattern
`uint8_t v = 0; dhcppkt_fetch ( pkt, tag, &v, sizeof ( v ) );`). -/
def fetchByte (opts : Options) (tag : Nat) : Nat :=
  match optLookup opts tag with
  | some (b :: _) => b
  | _ => 0

/-- Fetch a 4-byte value, succeeding only when the stored option length is
exactly 4 (pattern `dhcppkt_fetch ( ... ) != sizeof ( v )` check). -/
def fetchLen4 (opts : Options) (tag : Nat) : Option (List Nat) :=
  match optLookup opts tag with
  | some v => if v.length = 4 then some v else none
  | none => none

/-! ## Network device -/

/-- The slice of `struct net_device` the DHCP engine reads: link-layer
address and protocol metadata, bus description, and the client UUID
obtainable via `get_uuid` (`none` when `get_uuid` fails). -/
structure NetDevice where
  ll_addr : List Nat
  ll_addr_len : Nat
  ll_proto : Nat
  bus_type : Nat
  vendor : Nat
  device : Nat
  uuid : Option (List Nat)
deriving Repr, DecidableEq

/-- Function `dhcp_xid`: the 4 bytes copied from
`netdev->ll_addr + ll_addr_len - 4` — the least significant (trailing)
bytes of the hardware address. -/
def dhcp_xid (netdev : NetDevice) : List Nat :=
  (netdev.ll_addr.drop (netdev.ll_addr_len - 4)).take 4

/-! ## Packet construction -/

/-- The fields of the outgoing wire packet that `create_dhcp_packet` /
`create_dhcp_request` fill in, with the options area pre-decoded as a TLV
store. -/
structure BuiltPacket where
  op : Nat
  htype : Nat
  hlen : Nat
  flags : Nat
  xid : List Nat
  chaddr : List Nat
  options : Options
deriving Repr, DecidableEq

/-- The `dhcp_op` table: DHCP message type to BOOTP opcode. -/
def dhcp_op (msgtype : Nat) : Nat :=
  if msgtype = DHCPDISCOVER then BOOTP_REQUEST
  else if msgtype = DHCPOFFER then BOOTP_REPLY
  else if msgtype = DHCPREQUEST then BOOTP_REQUEST
  else if msgtype = DHCPDECLINE then BOOTP_REQUEST
  else if msgtype = DHCPACK then BOOTP_REPLY
  else if msgtype = DHCPNAK then BOOTP_REPLY
  else if msgtype = DHCPRELEASE then BOOTP_REQUEST
  else if msgtype = DHCPINFORM then BOOTP_REQUEST
  else 0

/-- The `dhcp_request_options_data` template attached to every request,
pre-decoded: maximum message size, vendor class string, client
architecture, client NDI, parameter request list. -/
def dhcp_request_options : Options :=
  [ (57, [0x05, 0xDC]),
    (60, [80, 88, 69, 67, 108, 105, 101, 110, 116, 58, 65, 114, 99, 104,
          58, 48, 48, 48, 48, 48, 58, 85, 78, 68, 73, 58, 48, 48, 50, 48,
          48, 49]),
    (93, [0, 0]),
    (94, [1, 2, 1]),
    (55, [1, 3, 6, 7, 12, 15, 17, 43, 60, 66, 67, 175, 203]) ]

/-- Wire length of `dhcp_request_options_data` (bytes, including the END
tag). -/
def dhcp_request_options_len : Nat := 63

/-- Function `create_dhcp_packet`: check buffer space, derive the transaction id
from the device, populate the header (suppressing `chaddr` and setting the
broadcast flag when the hardware address exceeds the 16-byte field, per
RFC 4390), copy the initial options and store the message-type option. -/
def create_dhcp_packet (netdev : NetDevice) (msgtype : Nat)
    (options : Options) (options_len : Nat) (max_len : Nat) :
    Except Int BuiltPacket :=
  if max_len < dhcphdrSize + options_len then
    .error (-ENOSPC)
  else
    let hlen := if netdev.ll_addr_len > 16 then 0 else netdev.ll_addr_len
    let flags := if netdev.ll_addr_len > 16 then BOOTP_FL_BROADCAST else 0
    .ok { op := dhcp_op msgtype
          htype := netdev.ll_proto
          hlen := hlen
          flags := flags
          xid := dhcp_xid netdev
          chaddr := netdev.ll_addr.take hlen
          options := optStore options DHCP_MESSAGE_TYPE [msgtype] }

/-- The DHCP feature-code table (`dhcp_features` .. `dhcp_features_end`):
assembled at link time from other translation units; empty in this one. -/
def dhcp_features : List Nat := []

/-- The identification options `create_dhcp_request` appends to every
request: feature list, bus description, client identifier (link-layer
protocol byte plus hardware address), and — when `get_uuid` succeeds — the
client UUID. -/
def addIdentOptions (netdev : NetDevice) (pkt : BuiltPacket) : BuiltPacket :=
  let o := optStore pkt.options DHCP_EB_ENCAP dhcp_features
  let o := optStore o DHCP_EB_BUS_ID
    [netdev.bus_type, netdev.vendor / 256, netdev.vendor % 256,
     netdev.device / 256, netdev.device % 256]
  let o := optStore o DHCP_CLIENT_ID
    ((netdev.ll_proto % 256) :: netdev.ll_addr.take netdev.ll_addr_len)
  let o := match netdev.uuid with
    | some u => optStore o DHCP_CLIENT_UUID (0 :: u)
    | none => o
  { pkt with options := o }

/-- Function `create_dhcp_request`: build a DISCOVER (no prior offer) or a REQUEST
(prior offer supplied; the offer is consumed only through `dhcppkt_fetch`,
so it is passed as its option store).  For a REQUEST, the server identifier
and the offered address are fetched from the offer — failure of either
fetch aborts with `-EINVAL` — and copied into the new packet as the
server-identifier and requested-address options.  Identification options
are then added. -/
def create_dhcp_request (netdev : NetDevice) (dhcpoffer : Option Options)
    (max_len : Nat) : Except Int BuiltPacket :=
  let msgtype := if dhcpoffer.isSome then DHCPREQUEST else DHCPDISCOVER
  match create_dhcp_packet netdev msgtype dhcp_request_options
      dhcp_request_options_len max_len with
  | .error rc => .error rc
  | .ok pkt =>
    match dhcpoffer with
    | none => .ok (addIdentOptions netdev pkt)
    | some offer =>
      match fetchLen4 offer DHCP_SERVER_IDENTIFIER with
      | none => .error (-EINVAL)
      | some server_id =>
        match fetchLen4 offer DHCP_EB_YIADDR with
        | none => .error (-EINVAL)
        | some requested_ip =>
          let o := optStore pkt.options DHCP_SERVER_IDENTIFIER server_id
          let o := optStore o DHCP_REQUESTED_ADDRESS requested_ip
          .ok (addIdentOptions netdev { pkt with options := o })

/-! ## Received packets and the session -/

/-- A received datagram after `dhcpset_create`: the header fields the
engine reads (`xid` as the raw 4 bytes, `yiaddr` as a 32-bit value) and the
packet's option store. -/
structure DhcpPacket where
  xid : List Nat
  yiaddr : Nat
  options : Options
deriving Repr, DecidableEq

/-- Structure `struct dhcp_session`: current state (a `DHCP_MESSAGE_TYPE` value),
the standard and ProxyDHCP response slots, the retry timer, the session
start tick, and the nullification status of the job/xfer interfaces
(`job_nullify` / `xfer_nullify` have been applied — i.e. the session has
finished). -/
structure DhcpSession where
  netdev : NetDevice
  state : Nat
  response : Option DhcpPacket
  proxy_response : Option DhcpPacket
  timerRunning : Bool
  start : Nat
  nullified : Bool
deriving Repr, DecidableEq

/-- Outcomes of the external collaborators during one event: the tick
clock, buffer-allocation success, the transport's transmit result, and the
settings-tree registration results for the ProxyDHCP and standard blocks. -/
structure Env where
  now : Nat
  allocOk : Bool
  xmitRc : Int
  proxyRegRc : Int
  dhcpRegRc : Int
deriving Repr, DecidableEq

/-- Observable effects of one event: the handler's return code, the packet
handed to the transport (with the transmit attempt's result), the blocks
passed to settings registration (standard, proxy), and the completion
status delivered via `job_done` when the session finishes. -/
structure Output where
  rc : Int
  sent : Option BuiltPacket
  sendRc : Option Int
  registered : Option (DhcpPacket × Option DhcpPacket)
  finished : Option Int
deriving Repr, DecidableEq

/-- The empty output: return code 0, no send, no registration, no
completion. -/
def Output.none : Output := ⟨0, Option.none, Option.none, Option.none, Option.none⟩

/-! ## Session engine -/

/-- The per-slot merge rule (`dhcp_deliver_raw` lines 669–681): fetch the
priority option of the stored block (default 0, also when no block is
stored) and of the incoming block (default 0); the incoming block replaces
the stored one iff its priority is greater or equal. -/
def mergeSlot (slot : Option DhcpPacket) (incoming : DhcpPacket) :
    Option DhcpPacket :=
  let existing_priority :=
    match slot with
    | some stored => fetchByte stored.options DHCP_EB_PRIORITY
    | none => 0
  let priority := fetchByte incoming.options DHCP_EB_PRIORITY
  if priority ≥ existing_priority then some incoming else slot

/-- Flavor selection and merge (`dhcp_deliver_raw` lines 664–681): a
response with a zero `yiaddr` is ProxyDHCP-flavored and merges into the
proxy slot, otherwise it merges into the standard slot. -/
def dhcp_merge (dhcp : DhcpSession) (pkt : DhcpPacket) : DhcpSession :=
  if pkt.yiaddr = 0 then
    { dhcp with proxy_response := mergeSlot dhcp.proxy_response pkt }
  else
    { dhcp with response := mergeSlot dhcp.response pkt }

/-- Function `dhcp_finished`: nullify the job and xfer interfaces (blocking further
incoming events) and stop the retry timer.  The completion code delivered
through `job_done` is recorded by each caller in its `Output`. -/
def dhcp_finished (dhcp : DhcpSession) : DhcpSession :=
  { dhcp with nullified := true, timerRunning := false }

/-- Function `dhcp_register_settings`: register the ProxyDHCP settings first (when
present), then the standard DHCP settings under the device's settings
block; the first failure aborts and becomes the result. -/
def dhcp_register_settings (dhcp : DhcpSession) (env : Env) : Int :=
  if dhcp.proxy_response.isSome ∧ env.proxyRegRc ≠ 0 then env.proxyRegRc
  else env.dhcpRegRc

/-- Function `dhcp_send_request`: restart the retry timer first (so any failure
below is retried), allocate a transmit buffer, build the packet appropriate
to the current state (passing the stored standard response as the prior
offer when in `DHCPREQUEST` state) and hand it to the transport.  Returns
the updated session, the packet handed to the transport (if construction
succeeded), and the return code. -/
def dhcp_send_request (dhcp : DhcpSession) (env : Env) :
    DhcpSession × Option BuiltPacket × Int :=
  let dhcp := { dhcp with timerRunning := true }
  if ¬ env.allocOk then
    (dhcp, Option.none, -ENOMEM)
  else
    let dhcpoffer := if dhcp.state = DHCPREQUEST then
        dhcp.response.map (fun r => r.options)
      else Option.none
    match create_dhcp_request dhcp.netdev dhcpoffer DHCP_MIN_LEN with
    | .error rc => (dhcp, Option.none, rc)
    | .ok pkt => (dhcp, some pkt, env.xmitRc)

/-- Function `dhcp_timer_expired`: on final expiry finish with `-ETIMEDOUT`,
otherwise retransmit the packet appropriate to the current state. -/
def dhcp_timer_expired (dhcp : DhcpSession) (fail : Bool) (env : Env) :
    DhcpSession × Output :=
  if fail then
    (dhcp_finished dhcp,
     ⟨0, Option.none, Option.none, Option.none, some (-ETIMEDOUT)⟩)
  else
    let (dhcp, sent, rc) := dhcp_send_request dhcp env
    (dhcp, ⟨0, sent, some rc, Option.none, Option.none⟩)

/-- The post-merge half of `dhcp_deliver_raw` (lines 683–718): if no
standard response is held yet, just leave the timer running.  Otherwise, in
`DHCPDISCOVER` state transition to `DHCPREQUEST` and send the request once
the standard response carries the no-ProxyDHCP flag or the ProxyDHCP wait
window has been exceeded; in `DHCPREQUEST` state drop the proxy response if
so flagged, register the settings and finish with the registration result.
The `default: assert ( 0 )` arm (a state other than the two) is modelled as
leaving the session unchanged; it is unreachable from accepted packets. -/
def dhcp_rx_resolve (dhcp : DhcpSession) (env : Env) : DhcpSession × Output :=
  match dhcp.response with
  | Option.none => (dhcp, Output.none)
  | some r =>
    let ignore_proxy := fetchByte r.options DHCP_EB_NO_PROXYDHCP
    if dhcp.state = DHCPDISCOVER then
      let elapsed := env.now - dhcp.start
      if ignore_proxy ≠ 0 ∨ elapsed > PROXYDHCP_WAIT_TIME then
        let dhcp := { dhcp with timerRunning := false,
                                state := DHCPREQUEST }
        let (dhcp, sent, src) := dhcp_send_request dhcp env
        (dhcp, ⟨0, sent, some src, Option.none, Option.none⟩)
      else
        (dhcp, Output.none)
    else if dhcp.state = DHCPREQUEST then
      let dhcp :=
        if ignore_proxy ≠ 0 ∧ dhcp.proxy_response.isSome then
          { dhcp with proxy_response := Option.none }
        else dhcp
      let regRc := dhcp_register_settings dhcp env
      (dhcp_finished dhcp,
       ⟨0, Option.none, Option.none, some (r, dhcp.proxy_response),
        some regRc⟩)
    else
      (dhcp, Output.none)

/-- Function `dhcp_deliver_raw`: validate the transaction id and the message type
against the current state (discarding silently with return code 0 on
either mismatch), then merge the response into the flavor-matching slot and
resolve the post-merge state.  The `dhcpset_create` allocation that wraps
the raw bytes into a settings block is an external-collaborator effect
(failing only on heap exhaustion, before any protocol logic runs) and is
modelled as succeeding; the tick clock is monotonic, so the unsigned
`currticks ( ) - dhcp->start` is Nat subtraction with `now ≥ start`. -/
def dhcp_deliver_raw (dhcp : DhcpSession) (pkt : DhcpPacket) (env : Env) :
    DhcpSession × Output :=
  if pkt.xid ≠ dhcp_xid dhcp.netdev then
    (dhcp, Output.none)
  else
    let msgtype := fetchByte pkt.options DHCP_MESSAGE_TYPE
    if ((dhcp.state ≠ DHCPDISCOVER) ∨ (msgtype ≠ DHCPOFFER)) ∧
       ((dhcp.state ≠ DHCPREQUEST) ∨ (msgtype ≠ DHCPACK)) then
      (dhcp, Output.none)
    else
      dhcp_rx_resolve (dhcp_merge dhcp pkt) env

/-- Function `dhcp_job_kill`: terminate the session with `-ECANCELED`. -/
def dhcp_job_kill (dhcp : DhcpSession) : DhcpSession × Output :=
  (dhcp_finished dhcp,
   ⟨0, Option.none, Option.none, Option.none, some (-ECANCELED)⟩)

/-! ## Event dispatch

The runtime delivers three kinds of events.  A stopped retry timer never
expires; a receive or kill event on a nullified session is absorbed by the
nullified interface operations (`ignore_xfer_close` / `ignore_job_done`
tables installed by `xfer_nullify` / `job_nullify`) and never reaches the
engine. -/

def timerEvent (dhcp : DhcpSession) (fail : Bool) (env : Env) :
    DhcpSession × Output :=
  if dhcp.timerRunning then dhcp_timer_expired dhcp fail env
  else (dhcp, Output.none)

def recvEvent (dhcp : DhcpSession) (pkt : DhcpPacket) (env : Env) :
    DhcpSession × Output :=
  if dhcp.nullified then (dhcp, Output.none)
  else dhcp_deliver_raw dhcp pkt env

def killEvent (dhcp : DhcpSession) : DhcpSession × Output :=
  if dhcp.nullified then (dhcp, Output.none)
  else dhcp_job_kill dhcp

/-- One externally-delivered event. -/
inductive DhcpEvent where
  | timer (fail : Bool) (env : Env)
  | recv (pkt : DhcpPacket) (env : Env)
  | kill
deriving Repr, DecidableEq

def applyEvent (dhcp : DhcpSession) (e : DhcpEvent) : DhcpSession × Output :=
  match e with
  | .timer fail env => timerEvent dhcp fail env
  | .recv pkt env => recvEvent dhcp pkt env
  | .kill => killEvent dhcp

def stepSession (dhcp : DhcpSession) (e : DhcpEvent) : DhcpSession :=
  (applyEvent dhcp e).1

/-- Function `start_dhcp`: initial session state — `DHCPDISCOVER`, empty response
slots, timer armed with no delay, start time recorded. -/
def initSession (netdev : NetDevice) (now : Nat) : DhcpSession :=
  ⟨netdev, DHCPDISCOVER, Option.none, Option.none, true, now, false⟩

/-- The session reached from start by a list of events. -/
def runSession (netdev : NetDevice) (now : Nat) (es : List DhcpEvent) :
    DhcpSession :=
  es.foldl stepSession (initSession netdev now)

/-! ## Basic lemmas about the engine's pieces -/

/-- The priority the merge rule reads from a slot (0 when empty). -/
def slotPriority (slot : Option DhcpPacket) : Nat :=
  match slot with
  | some stored => fetchByte stored.options DHCP_EB_PRIORITY
  | none => 0

theorem mergeSlot_eq (slot : Option DhcpPacket) (incoming : DhcpPacket) :
    mergeSlot slot incoming =
      if fetchByte incoming.options DHCP_EB_PRIORITY ≥ slotPriority slot then
        some incoming
      else slot := by
  cases slot <;> rfl

theorem dhcp_merge_state (s : DhcpSession) (pkt : DhcpPacket) :
    (dhcp_merge s pkt).state = s.state := by
  unfold dhcp_merge; split <;> rfl

theorem dhcp_merge_start (s : DhcpSession) (pkt : DhcpPacket) :
    (dhcp_merge s pkt).start = s.start := by
  unfold dhcp_merge; split <;> rfl

theorem dhcp_merge_netdev (s : DhcpSession) (pkt : DhcpPacket) :
    (dhcp_merge s pkt).netdev = s.netdev := by
  unfold dhcp_merge; split <;> rfl

theorem dhcp_merge_nullified (s : DhcpSession) (pkt : DhcpPacket) :
    (dhcp_merge s pkt).nullified = s.nullified := by
  unfold dhcp_merge; split <;> rfl

theorem dhcp_merge_timer (s : DhcpSession) (pkt : DhcpPacket) :
    (dhcp_merge s pkt).timerRunning = s.timerRunning := by
  unfold dhcp_merge; split <;> rfl

theorem dhcp_merge_proxy (s : DhcpSession) (pkt : DhcpPacket)
    (h : pkt.yiaddr = 0) :
    dhcp_merge s pkt =
      { s with proxy_response := mergeSlot s.proxy_response pkt } := by
  unfold dhcp_merge; rw [if_pos h]

theorem dhcp_merge_standard (s : DhcpSession) (pkt : DhcpPacket)
    (h : pkt.yiaddr ≠ 0) :
    dhcp_merge s pkt =
      { s with response := mergeSlot s.response pkt } := by
  unfold dhcp_merge; rw [if_neg h]

theorem dhcp_merge_response_isSome (s : DhcpSession) (pkt : DhcpPacket)
    (h : s.response.isSome = true) :
    (dhcp_merge s pkt).response.isSome = true := by
  unfold dhcp_merge
  split
  · exact h
  · rw [mergeSlot_eq]
    split
    · rfl
    · exact h

/-- Function `dhcp_send_request` changes the session only by (re)starting the
retry timer. -/
theorem dhcp_send_request_fst (s : DhcpSession) (env : Env) :
    (dhcp_send_request s env).1 = { s with timerRunning := true } := by
  unfold dhcp_send_request
  split
  · rfl
  · dsimp only
    split <;> rfl

/-- Function `dhcp_send_request` never finishes the session and never registers
settings; with allocation succeeding, the packet handed to the transport is
exactly the result of `create_dhcp_request` from the current state. -/
theorem dhcp_send_request_sent (s : DhcpSession) (env : Env)
    (h : env.allocOk = true) :
    (dhcp_send_request s env).2.1 =
      (create_dhcp_request s.netdev
        (if s.state = DHCPREQUEST then s.response.map (fun r => r.options)
         else Option.none) DHCP_MIN_LEN).toOption := by
  unfold dhcp_send_request
  rw [if_neg (by simp [h])]
  dsimp only
  split <;> (split <;> simp_all [Except.toOption])

/-- Whatever was handed to the transport was built by
`create_dhcp_request` from the current state. -/
theorem dhcp_send_request_sent_ok (s : DhcpSession) (env : Env)
    (bp : BuiltPacket)
    (h : (dhcp_send_request s env).2.1 = some bp) :
    create_dhcp_request s.netdev
      (if s.state = DHCPREQUEST then s.response.map (fun r => r.options)
       else Option.none) DHCP_MIN_LEN = .ok bp := by
  by_cases ha : env.allocOk = true
  · have hs := dhcp_send_request_sent s env ha
    rw [h] at hs
    cases hc : create_dhcp_request s.netdev
        (if s.state = DHCPREQUEST then s.response.map (fun r => r.options)
         else Option.none) DHCP_MIN_LEN with
    | ok a => rw [hc] at hs; simp [Except.toOption] at hs; rw [hs]
    | error e => rw [hc] at hs; simp [Except.toOption] at hs
  · unfold dhcp_send_request at h
    rw [if_pos (by simp [ha])] at h
    exact absurd h (by simp)

/-- A successfully built request's message-type option is `DHCPREQUEST`
when a prior offer was supplied and `DHCPDISCOVER` otherwise. -/
theorem create_dhcp_request_msgtype (netdev : NetDevice)
    (dhcpoffer : Option Options) (max_len : Nat) (bp : BuiltPacket)
    (h : create_dhcp_request netdev dhcpoffer max_len = .ok bp) :
    fetchByte bp.options DHCP_MESSAGE_TYPE =
      (if dhcpoffer.isSome then DHCPREQUEST else DHCPDISCOVER) := by
  unfold create_dhcp_request create_dhcp_packet at h
  dsimp only at h
  by_cases hsp : max_len < dhcphdrSize + dhcp_request_options_len
  · rw [if_pos hsp] at h
    simp at h
  · rw [if_neg hsp] at h
    cases dhcpoffer with
    | none =>
        simp only [Option.isSome_none, Bool.false_eq_true, if_false] at h ⊢
        injection h with h
        subst h
        cases hu : netdev.uuid <;> simp [addIdentOptions, hu] <;> rfl
    | some offer =>
        simp only [Option.isSome_some, if_true] at h ⊢
        cases hsid : fetchLen4 offer DHCP_SERVER_IDENTIFIER with
        | none => rw [hsid] at h; simp at h
        | some server_id =>
          rw [hsid] at h
          cases hyip : fetchLen4 offer DHCP_EB_YIADDR with
          | none => rw [hyip] at h; simp at h
          | some requested_ip =>
            rw [hyip] at h
            simp only at h
            injection h with h
            subst h
            cases hu : netdev.uuid <;> simp [addIdentOptions, hu] <;> rfl

/-- A non-final timer expiry leaves everything but the (restarted) timer
unchanged and only attempts a retransmission. -/
theorem dhcp_timer_expired_retry (s : DhcpSession) (env : Env) :
    dhcp_timer_expired s false env =
      ({ s with timerRunning := true },
       ⟨0, (dhcp_send_request s env).2.1, some (dhcp_send_request s env).2.2,
        Option.none, Option.none⟩) := by
  unfold dhcp_timer_expired
  rw [if_neg (by simp), ← dhcp_send_request_fst s env]

/-- A datagram failing the transaction-id or message-type check is
discarded with no effect and no error. -/
theorem dhcp_deliver_not_accepted (s : DhcpSession) (pkt : DhcpPacket)
    (env : Env)
    (hmis : pkt.xid ≠ dhcp_xid s.netdev ∨
      ¬((s.state = DHCPDISCOVER ∧
           fetchByte pkt.options DHCP_MESSAGE_TYPE = DHCPOFFER) ∨
        (s.state = DHCPREQUEST ∧
           fetchByte pkt.options DHCP_MESSAGE_TYPE = DHCPACK))) :
    dhcp_deliver_raw s pkt env = (s, Output.none) := by
  unfold dhcp_deliver_raw
  by_cases hx : pkt.xid ≠ dhcp_xid s.netdev
  · rw [if_pos hx]
  · rw [if_neg hx]
    dsimp only
    rcases hmis with h | h
    · exact absurd h hx
    · rw [if_pos ⟨not_and_or.mp (not_or.mp h).1,
                  not_and_or.mp (not_or.mp h).2⟩]

/-- An accepted datagram (matching transaction id, message type expected
for the current state) is merged and then resolved. -/
theorem dhcp_deliver_accepted (s : DhcpSession) (pkt : DhcpPacket) (env : Env)
    (hxid : pkt.xid = dhcp_xid s.netdev)
    (hacc : (s.state = DHCPDISCOVER ∧
               fetchByte pkt.options DHCP_MESSAGE_TYPE = DHCPOFFER) ∨
            (s.state = DHCPREQUEST ∧
               fetchByte pkt.options DHCP_MESSAGE_TYPE = DHCPACK)) :
    dhcp_deliver_raw s pkt env = dhcp_rx_resolve (dhcp_merge s pkt) env := by
  unfold dhcp_deliver_raw
  rw [if_neg (by simp [hxid])]
  dsimp only
  rw [if_neg]
  intro hc
  rcases hacc with ⟨h1, h2⟩ | ⟨h1, h2⟩
  · rcases hc.1 with h | h <;> exact h (by assumption)
  · rcases hc.2 with h | h <;> exact h (by assumption)

/-- Resolution in `DHCPREQUEST` state with a standard response held:
discard the proxy response when flagged, register, finish. -/
theorem dhcp_rx_resolve_request (m : DhcpSession) (env : Env)
    (r : DhcpPacket) (hstate : m.state = DHCPREQUEST)
    (hr : m.response = some r) :
    dhcp_rx_resolve m env =
      (let proxyFinal := if fetchByte r.options DHCP_EB_NO_PROXYDHCP ≠ 0
         then Option.none else m.proxy_response
       ({ m with proxy_response := proxyFinal, nullified := true,
                 timerRunning := false },
        ⟨0, Option.none, Option.none, some (r, proxyFinal),
         some (dhcp_register_settings
           { m with proxy_response := proxyFinal } env)⟩)) := by
  unfold dhcp_rx_resolve
  rw [hr]
  dsimp only
  rw [if_neg (by rw [hstate]; decide), if_pos hstate]
  by_cases hi : fetchByte r.options DHCP_EB_NO_PROXYDHCP ≠ 0
  · cases hp : m.proxy_response with
    | none => simp [hi, hp, hr, dhcp_finished, dhcp_register_settings]
    | some q => simp [hi, hp, hr, dhcp_finished, dhcp_register_settings]
  · simp [hi, hr, dhcp_finished, dhcp_register_settings]

/-- Resolution in `DHCPDISCOVER` state with a standard response held:
transition to `DHCPREQUEST` and send exactly when the no-ProxyDHCP flag is
set or the wait window has been exceeded. -/
theorem dhcp_rx_resolve_discover (m : DhcpSession) (env : Env)
    (r : DhcpPacket) (hstate : m.state = DHCPDISCOVER)
    (hr : m.response = some r) :
    dhcp_rx_resolve m env =
      (if fetchByte r.options DHCP_EB_NO_PROXYDHCP ≠ 0 ∨
          env.now - m.start > PROXYDHCP_WAIT_TIME then
        ({ m with state := DHCPREQUEST, timerRunning := true },
         ⟨0, (dhcp_send_request
                { m with timerRunning := false, state := DHCPREQUEST }
                env).2.1,
          some (dhcp_send_request
                { m with timerRunning := false, state := DHCPREQUEST }
                env).2.2,
          Option.none, Option.none⟩)
       else (m, Output.none)) := by
  unfold dhcp_rx_resolve
  rw [hr]
  dsimp only
  rw [if_pos hstate]
  split
  · rw [dhcp_send_request_fst]
  · rfl

/-! ## Concrete fixtures used by the witnesses -/

/-- A 6-byte-MAC Ethernet-like device. -/
def ndA : NetDevice :=
  ⟨[0xAA, 0xBB, 0xCC, 0xDD, 0xEE, 0xFF], 6, 1, 2, 3, 4, Option.none⟩

/-- A benign environment: all collaborators succeed. -/
def envA : Env := ⟨100, true, 0, 0, 0⟩

/-- A benign environment at a tick past the ProxyDHCP wait window. -/
def envLate : Env := ⟨3000, true, 0, 0, 0⟩

/-- A fresh session on `ndA`, started at tick 50. -/
def sessA : DhcpSession := initSession ndA 50

/-- A datagram with a non-matching transaction id. -/
def badA : DhcpPacket := ⟨[1, 2, 3, 4], 5, [(53, [2])]⟩

/-- A standard OFFER for `ndA` (priority absent, so 0). -/
def offerA : DhcpPacket :=
  ⟨[0xCC, 0xDD, 0xEE, 0xFF], 0x0A000005,
   [(53, [2]), (54, [10, 0, 0, 1]), (0xAF02, [10, 0, 0, 5])]⟩

/-- A standard OFFER for `ndA` with priority 1. -/
def offerP1 : DhcpPacket :=
  ⟨[0xCC, 0xDD, 0xEE, 0xFF], 0x0A000005,
   [(53, [2]), (0xAF01, [1]), (54, [10, 0, 0, 1]), (0xAF02, [10, 0, 0, 5])]⟩

/-- A standard OFFER for `ndA` with priority 3. -/
def offerP3 : DhcpPacket :=
  ⟨[0xCC, 0xDD, 0xEE, 0xFF], 0x0A000007,
   [(53, [2]), (0xAF01, [3]), (54, [10, 0, 0, 2]), (0xAF02, [10, 0, 0, 7])]⟩

/-- An ACK for `ndA` (nonzero `yiaddr`). -/
def ackA : DhcpPacket :=
  ⟨[0xCC, 0xDD, 0xEE, 0xFF], 0x0A000005,
   [(53, [5]), (54, [10, 0, 0, 1]), (0xAF02, [10, 0, 0, 5])]⟩

/-- A proxy-flavored ACK for `ndA` (zero `yiaddr`). -/
def proxyAckA : DhcpPacket :=
  ⟨[0xCC, 0xDD, 0xEE, 0xFF], 0, [(53, [5]), (60, [80, 88, 69])]⟩

/-- A session on `ndA` in `DHCPREQUEST` state holding `offerA`. -/
def sessReqA : DhcpSession :=
  ⟨ndA, DHCPREQUEST, some offerA, Option.none, true, 50, false⟩

/-! ## Claims -/

/-- Claim C1: a received datagram whose transaction id does not equal the
session's derived id, or whose DHCP message type is not the one expected
for the current state (OFFER while Discovering, ACK while Requesting), is
discarded: the receive handler returns the session — state enum, both
response slots, timer, start time — entirely unchanged, with return code 0
and no observable effect. -/
theorem c1_noise_discarded (s : DhcpSession) (pkt : DhcpPacket) (env : Env)
    (hmis : pkt.xid ≠ dhcp_xid s.netdev ∨
      ¬((s.state = DHCPDISCOVER ∧
           fetchByte pkt.options DHCP_MESSAGE_TYPE = DHCPOFFER) ∨
        (s.state = DHCPREQUEST ∧
           fetchByte pkt.options DHCP_MESSAGE_TYPE = DHCPACK))) :
    recvEvent s pkt env = (s, Output.none) := by
  unfold recvEvent
  by_cases hn : s.nullified = true
  · rw [if_pos hn]
  · rw [if_neg hn]
    exact dhcp_deliver_not_accepted s pkt env hmis

/-- Witness for C1: a packet with the wrong transaction id leaves a fresh
session untouched. -/
theorem c1_witness : recvEvent sessA badA envA = (sessA, Output.none) :=
  c1_noise_discarded sessA badA envA (Or.inl (by decide))

/-- Claim C2: the merge rule is applied per flavor independently (proxy slot
iff the offered address is zero), replacing the stored block exactly when
the incoming priority (default 0) is at least the stored priority (default
0 for an empty slot); consequently, for same-flavor responses of priorities
`p1 ≤ p2`, the stored block ends with priority `p2` regardless of arrival
order — being the `p2` block itself in both orders when `p1 < p2`, with the
newer arrival winning a tie. -/
theorem c2_merge_priority :
    (∀ (s : DhcpSession) (pkt : DhcpPacket), pkt.yiaddr = 0 →
       dhcp_merge s pkt =
         { s with proxy_response := mergeSlot s.proxy_response pkt }) ∧
    (∀ (s : DhcpSession) (pkt : DhcpPacket), pkt.yiaddr ≠ 0 →
       dhcp_merge s pkt =
         { s with response := mergeSlot s.response pkt }) ∧
    (∀ (slot : Option DhcpPacket) (inc : DhcpPacket),
       slotPriority slot ≤ fetchByte inc.options DHCP_EB_PRIORITY →
       mergeSlot slot inc = some inc) ∧
    (∀ (slot : Option DhcpPacket) (inc : DhcpPacket),
       fetchByte inc.options DHCP_EB_PRIORITY < slotPriority slot →
       mergeSlot slot inc = slot) ∧
    (∀ a b : DhcpPacket,
       fetchByte a.options DHCP_EB_PRIORITY ≤
         fetchByte b.options DHCP_EB_PRIORITY →
       mergeSlot (mergeSlot Option.none a) b = some b ∧
       slotPriority (mergeSlot (mergeSlot Option.none b) a) =
         fetchByte b.options DHCP_EB_PRIORITY) ∧
    (∀ a b : DhcpPacket,
       fetchByte a.options DHCP_EB_PRIORITY <
         fetchByte b.options DHCP_EB_PRIORITY →
       mergeSlot (mergeSlot Option.none b) a = some b) ∧
    (∀ a b : DhcpPacket,
       fetchByte a.options DHCP_EB_PRIORITY =
         fetchByte b.options DHCP_EB_PRIORITY →
       mergeSlot (mergeSlot Option.none b) a = some a) := by
  have hsome : ∀ (slot : Option DhcpPacket) (inc : DhcpPacket),
      slotPriority slot ≤ fetchByte inc.options DHCP_EB_PRIORITY →
      mergeSlot slot inc = some inc := by
    intro slot inc h
    rw [mergeSlot_eq, if_pos h]
  have hkeep : ∀ (slot : Option DhcpPacket) (inc : DhcpPacket),
      fetchByte inc.options DHCP_EB_PRIORITY < slotPriority slot →
      mergeSlot slot inc = slot := by
    intro slot inc h
    rw [mergeSlot_eq, if_neg (by omega)]
  have hfirst : ∀ a : DhcpPacket, mergeSlot Option.none a = some a := by
    intro a
    exact hsome Option.none a (by simp [slotPriority])
  refine ⟨fun s pkt h => dhcp_merge_proxy s pkt h,
          fun s pkt h => dhcp_merge_standard s pkt h,
          hsome, hkeep, ?_, ?_, ?_⟩
  · intro a b hab
    constructor
    · rw [hfirst a]
      exact hsome (some a) b (by simpa [slotPriority] using hab)
    · rw [hfirst b]
      by_cases hba : fetchByte b.options DHCP_EB_PRIORITY ≤
          fetchByte a.options DHCP_EB_PRIORITY
      · rw [hsome (some b) a (by simpa [slotPriority] using hba)]
        simp [slotPriority]
        omega
      · rw [hkeep (some b) a (by simp [slotPriority]; omega)]
        simp [slotPriority]
  · intro a b hab
    rw [hfirst b]
    exact hkeep (some b) a (by simpa [slotPriority] using hab)
  · intro a b hab
    rw [hfirst b]
    exact hsome (some b) a (by simp [slotPriority, hab])

/-- Witness for C2: priority-1 then priority-3 offers — the priority-3
offer is retained. -/
theorem c2_witness :
    mergeSlot (mergeSlot Option.none offerP1) offerP3 = some offerP3 :=
  (c2_merge_priority.2.2.2.2.1 offerP1 offerP3 (by decide)).1

/-- Every packet built by `create_dhcp_request` carries the transaction id
derived from the device. -/
theorem create_dhcp_request_xid (netdev : NetDevice)
    (dhcpoffer : Option Options) (max_len : Nat) (bp : BuiltPacket)
    (h : create_dhcp_request netdev dhcpoffer max_len = .ok bp) :
    bp.xid = dhcp_xid netdev := by
  unfold create_dhcp_request create_dhcp_packet at h
  dsimp only at h
  by_cases hsp : max_len < dhcphdrSize + dhcp_request_options_len
  · rw [if_pos hsp] at h
    simp at h
  · rw [if_neg hsp] at h
    cases dhcpoffer with
    | none =>
        simp only [Option.isSome_none, Bool.false_eq_true, if_false] at h
        injection h with h
        subst h
        rfl
    | some offer =>
        simp only [Option.isSome_some, if_true] at h
        cases hsid : fetchLen4 offer DHCP_SERVER_IDENTIFIER with
        | none => rw [hsid] at h; simp at h
        | some server_id =>
          rw [hsid] at h
          cases hyip : fetchLen4 offer DHCP_EB_YIADDR with
          | none => rw [hyip] at h; simp at h
          | some requested_ip =>
            rw [hyip] at h
            simp only at h
            injection h with h
            subst h
            rfl

/-- Claim C7: the transaction id placed in every packet the session builds —
DISCOVER or REQUEST — is exactly the trailing 4 bytes of the device's
hardware address, a deterministic function of the device. -/
theorem c7_xid_trailing_bytes (netdev : NetDevice)
    (dhcpoffer : Option Options) (max_len : Nat) (bp : BuiltPacket)
    (hlen : netdev.ll_addr.length = netdev.ll_addr_len)
    (h4 : 4 ≤ netdev.ll_addr_len)
    (h : create_dhcp_request netdev dhcpoffer max_len = .ok bp) :
    bp.xid = netdev.ll_addr.drop (netdev.ll_addr.length - 4) ∧
    bp.xid.length = 4 := by
  have hx := create_dhcp_request_xid netdev dhcpoffer max_len bp h
  have hdl : (netdev.ll_addr.drop (netdev.ll_addr_len - 4)).length = 4 := by
    rw [List.length_drop, hlen]
    omega
  constructor
  · rw [hx]
    unfold dhcp_xid
    rw [hlen]
    exact List.take_of_length_le (by rw [hdl])
  · rw [hx]
    unfold dhcp_xid
    rw [List.length_take, hdl]
    simp

/-- Witness for C7: for `ndA`, the built DISCOVER's xid is the MAC's last
4 bytes. -/
theorem c7_witness :
    ∃ bp, create_dhcp_request ndA Option.none DHCP_MIN_LEN = .ok bp ∧
      bp.xid = ndA.ll_addr.drop (ndA.ll_addr.length - 4) ∧
      bp.xid.length = 4 := by
  have h1 : (create_dhcp_request ndA Option.none DHCP_MIN_LEN).toOption.isSome
      = true := by decide
  cases hc : create_dhcp_request ndA Option.none DHCP_MIN_LEN with
  | error e => rw [hc] at h1; simp [Except.toOption] at h1
  | ok bp =>
      exact ⟨bp, rfl,
        c7_xid_trailing_bytes ndA Option.none DHCP_MIN_LEN bp (by decide)
          (by decide) hc⟩

/-- Claim C8: building a REQUEST from a prior OFFER fails with `-EINVAL`
(and produces no packet) when the server-identifier or offered-address
option cannot be fetched from the OFFER; when both are present they are
copied into the REQUEST as its server-identifier and requested-address
options. -/
theorem c8_request_offer_fields (netdev : NetDevice) (offer : Options)
    (max_len : Nat)
    (hsp : dhcphdrSize + dhcp_request_options_len ≤ max_len) :
    ((fetchLen4 offer DHCP_SERVER_IDENTIFIER = Option.none ∨
      fetchLen4 offer DHCP_EB_YIADDR = Option.none) →
      create_dhcp_request netdev (some offer) max_len = .error (-EINVAL)) ∧
    (∀ server_id requested_ip,
      fetchLen4 offer DHCP_SERVER_IDENTIFIER = some server_id →
      fetchLen4 offer DHCP_EB_YIADDR = some requested_ip →
      ∃ bp, create_dhcp_request netdev (some offer) max_len = .ok bp ∧
        optLookup bp.options DHCP_SERVER_IDENTIFIER = some server_id ∧
        optLookup bp.options DHCP_REQUESTED_ADDRESS = some requested_ip) := by
  unfold create_dhcp_request create_dhcp_packet
  dsimp only
  rw [if_neg (by omega)]
  simp only [Option.isSome_some, if_true]
  constructor
  · intro hmiss
    cases hsid : fetchLen4 offer DHCP_SERVER_IDENTIFIER with
    | none => rfl
    | some server_id =>
        cases hyip : fetchLen4 offer DHCP_EB_YIADDR with
        | none => rfl
        | some requested_ip =>
            rcases hmiss with hm | hm
            · rw [hsid] at hm; exact absurd hm (by simp)
            · rw [hyip] at hm; exact absurd hm (by simp)
  · intro server_id requested_ip hsid hrip
    rw [hsid, hrip]
    refine ⟨_, rfl, ?_, ?_⟩ <;>
      (cases hu : netdev.uuid <;> (rw [addIdentOptions, hu]; rfl))

/-- Witness for C8: an offer holding both options yields a REQUEST copying
them; an offer missing the server identifier fails with `-EINVAL`. -/
theorem c8_witness :
    (∃ bp, create_dhcp_request ndA (some offerA.options) DHCP_MIN_LEN =
        .ok bp ∧
      optLookup bp.options DHCP_SERVER_IDENTIFIER = some [10, 0, 0, 1] ∧
      optLookup bp.options DHCP_REQUESTED_ADDRESS = some [10, 0, 0, 5]) ∧
    create_dhcp_request ndA (some proxyAckA.options) DHCP_MIN_LEN =
      .error (-EINVAL) :=
  ⟨(c8_request_offer_fields ndA offerA.options DHCP_MIN_LEN
      (by decide)).2 [10, 0, 0, 1] [10, 0, 0, 5] (by decide) (by decide),
   (c8_request_offer_fields ndA proxyAckA.options DHCP_MIN_LEN
      (by decide)).1 (Or.inl (by decide))⟩

/-- Claim C5: on timer expiry with the attempt budget exhausted the session
finishes with `-ETIMEDOUT`; otherwise the session is unchanged (timer still
armed — it was restarted before the build/send attempt, so allocation,
construction or transmit failures never finish the session) and the packet
handed to the transport is the one appropriate to the current state:
REQUEST in `DHCPREQUEST` state (with a stored response), DISCOVER
otherwise. -/
theorem c5_timer_expiry (s : DhcpSession) (env : Env)
    (ht : s.timerRunning = true) :
    (timerEvent s true env =
      ({ s with nullified := true, timerRunning := false },
       ⟨0, Option.none, Option.none, Option.none, some (-ETIMEDOUT)⟩)) ∧
    ((timerEvent s false env).1 = s ∧
     (timerEvent s false env).2.finished = Option.none ∧
     (timerEvent s false env).2.registered = Option.none ∧
     (env.allocOk = true →
       (timerEvent s false env).2.sent =
         (create_dhcp_request s.netdev
           (if s.state = DHCPREQUEST then s.response.map (fun r => r.options)
            else Option.none) DHCP_MIN_LEN).toOption) ∧
     (∀ bp, (timerEvent s false env).2.sent = some bp →
        fetchByte bp.options DHCP_MESSAGE_TYPE =
          (if s.state = DHCPREQUEST ∧ s.response.isSome = true
           then DHCPREQUEST else DHCPDISCOVER))) := by
  have htrue : timerEvent s true env = dhcp_timer_expired s true env := by
    unfold timerEvent; rw [if_pos ht]
  have hfalse : timerEvent s false env =
      ({ s with timerRunning := true },
       ⟨0, (dhcp_send_request s env).2.1,
        some (dhcp_send_request s env).2.2,
        Option.none, Option.none⟩) := by
    unfold timerEvent; rw [if_pos ht, dhcp_timer_expired_retry]
  have hself : ({ s with timerRunning := true } : DhcpSession) = s := by
    cases s; simp_all
  refine ⟨?_, ?_, ?_, ?_, ?_, ?_⟩
  · rw [htrue]; rfl
  · rw [hfalse, hself]
  · rw [hfalse]
  · rw [hfalse]
  · intro ha
    rw [hfalse]
    exact dhcp_send_request_sent s env ha
  · intro bp hbp
    rw [hfalse] at hbp
    have hok := dhcp_send_request_sent_ok s env bp hbp
    have hmt := create_dhcp_request_msgtype s.netdev _ DHCP_MIN_LEN bp hok
    rw [hmt]
    by_cases hq : s.state = DHCPREQUEST
    · cases hresp : s.response with
      | none => simp [hq, hresp]
      | some r => simp [hq, hresp]
    · simp [hq]

/-- Witness for C5: on the fresh session, final expiry times out; a
non-final expiry leaves the session unchanged and retransmits a
DISCOVER. -/
theorem c5_witness :
    (timerEvent sessA true envA).2.finished = some (-ETIMEDOUT) ∧
    (timerEvent sessA false envA).1 = sessA := by
  have h := c5_timer_expiry sessA envA (by decide)
  exact ⟨by rw [h.1], h.2.1⟩

/-- Claim C4: an accepted ACK in `DHCPREQUEST` state finishes the session in
the same receive event: if the standard response carries the no-ProxyDHCP
flag, the stored proxy response is discarded before registration (so no
ProxyDHCP block reaches the settings tree); the merged settings are then
registered and the session finishes with the registration result — 0 on
success, the registration error otherwise. -/
theorem c4_ack_finishes (s : DhcpSession) (pkt : DhcpPacket) (env : Env)
    (r : DhcpPacket)
    (hn : s.nullified = false)
    (hstate : s.state = DHCPREQUEST)
    (hxid : pkt.xid = dhcp_xid s.netdev)
    (hmt : fetchByte pkt.options DHCP_MESSAGE_TYPE = DHCPACK)
    (hr : (dhcp_merge s pkt).response = some r) :
    recvEvent s pkt env =
      (let m := dhcp_merge s pkt
       let proxyFinal := if fetchByte r.options DHCP_EB_NO_PROXYDHCP ≠ 0
         then Option.none else m.proxy_response
       ({ m with proxy_response := proxyFinal, nullified := true,
                 timerRunning := false },
        ⟨0, Option.none, Option.none, some (r, proxyFinal),
         some (dhcp_register_settings
           { m with proxy_response := proxyFinal } env)⟩)) ∧
    (fetchByte r.options DHCP_EB_NO_PROXYDHCP ≠ 0 →
      (recvEvent s pkt env).2.registered = some (r, Option.none)) := by
  have hrecv : recvEvent s pkt env =
      dhcp_rx_resolve (dhcp_merge s pkt) env := by
    unfold recvEvent
    rw [if_neg (by simp [hn])]
    exact dhcp_deliver_accepted s pkt env hxid (Or.inr ⟨hstate, hmt⟩)
  have hres := dhcp_rx_resolve_request (dhcp_merge s pkt) env r
    (by rw [dhcp_merge_state]; exact hstate) hr
  constructor
  · rw [hrecv, hres]
  · intro hflag
    rw [hrecv, hres]
    simp [hflag]

/-- Witness for C4: the ACK delivered in `DHCPREQUEST` state finishes the
session with successful registration of the merged settings. -/
theorem c4_witness :
    (recvEvent sessReqA ackA envA).2.finished = some 0 ∧
    (recvEvent sessReqA ackA envA).2.registered = some (ackA, Option.none) ∧
    (recvEvent sessReqA ackA envA).1.nullified = true := by
  have h := (c4_ack_finishes sessReqA ackA envA ackA (by decide) (by decide)
    (by decide) (by decide) (by decide)).1
  rw [h]
  exact ⟨by decide, by decide, by decide⟩

/-- Claim C10: an ACK with a zero offered-address field accepted in
`DHCPREQUEST` state is classified proxy-flavored — it is merged into the
proxy slot and the standard slot is untouched — yet the session still
completes in that same event, registering as the standard settings the
block held in the standard slot (the earlier OFFER, not the ACK). -/
theorem c10_zero_yiaddr_ack (s : DhcpSession) (pkt : DhcpPacket) (env : Env)
    (offer : DhcpPacket)
    (hn : s.nullified = false)
    (hstate : s.state = DHCPREQUEST)
    (hresp : s.response = some offer)
    (hxid : pkt.xid = dhcp_xid s.netdev)
    (hmt : fetchByte pkt.options DHCP_MESSAGE_TYPE = DHCPACK)
    (hy : pkt.yiaddr = 0) :
    (dhcp_merge s pkt).response = some offer ∧
    (dhcp_merge s pkt).proxy_response = mergeSlot s.proxy_response pkt ∧
    (recvEvent s pkt env).1.response = some offer ∧
    (recvEvent s pkt env).1.nullified = true ∧
    ((recvEvent s pkt env).2.registered.map Prod.fst) = some offer ∧
    (recvEvent s pkt env).2.finished.isSome = true := by
  have hm := dhcp_merge_proxy s pkt hy
  have hmr : (dhcp_merge s pkt).response = some offer := by
    rw [hm]; exact hresp
  have hrecv : recvEvent s pkt env =
      dhcp_rx_resolve (dhcp_merge s pkt) env := by
    unfold recvEvent
    rw [if_neg (by simp [hn])]
    exact dhcp_deliver_accepted s pkt env hxid (Or.inr ⟨hstate, hmt⟩)
  have hres := dhcp_rx_resolve_request (dhcp_merge s pkt) env offer
    (by rw [dhcp_merge_state]; exact hstate) hmr
  refine ⟨hmr, by rw [hm], ?_, ?_, ?_, ?_⟩ <;>
    rw [hrecv, hres] <;>
    first
    | exact hmr
    | rfl

/-- Witness for C10: a zero-`yiaddr` ACK against `sessReqA` completes the
session while the registered standard settings are the stored OFFER. -/
theorem c10_witness :
    (recvEvent sessReqA proxyAckA envA).1.response = some offerA ∧
    ((recvEvent sessReqA proxyAckA envA).2.registered.map Prod.fst) =
      some offerA :=
  ⟨(c10_zero_yiaddr_ack sessReqA proxyAckA envA offerA (by decide)
      (by decide) (by decide) (by decide) (by decide) (by decide)).2.2.1,
   (c10_zero_yiaddr_ack sessReqA proxyAckA envA offerA (by decide)
      (by decide) (by decide) (by decide) (by decide) (by decide)).2.2.2.2.1⟩

/-- In `DHCPREQUEST` state with a stored response, any packet handed to
the transport carries message type `DHCPREQUEST`. -/
theorem dhcp_send_in_request_state_msgtype (X : DhcpSession) (env : Env)
    (r : DhcpPacket) (bp : BuiltPacket)
    (hbp : (dhcp_send_request X env).2.1 = some bp)
    (hst : X.state = DHCPREQUEST)
    (hresp : X.response = some r) :
    fetchByte bp.options DHCP_MESSAGE_TYPE = DHCPREQUEST := by
  have hok := dhcp_send_request_sent_ok X env bp hbp
  rw [if_pos hst, hresp] at hok
  have h2 := create_dhcp_request_msgtype X.netdev
    (Option.map (fun q => q.options) (some r)) DHCP_MIN_LEN bp hok
  simpa using h2

/-- Claim C3: after a merge in `DHCPDISCOVER` state that leaves a standard
response stored, the session transitions to `DHCPREQUEST` — stopping the
wait and immediately attempting to build and send the REQUEST from the
stored standard response — if and only if that response carries the
no-ProxyDHCP flag or the elapsed time since session start exceeds the
ProxyDHCP wait window; otherwise it stays in `DHCPDISCOVER` with nothing
else changed. -/
theorem c3_discover_transition (s : DhcpSession) (pkt : DhcpPacket)
    (env : Env) (r : DhcpPacket)
    (hn : s.nullified = false)
    (hstate : s.state = DHCPDISCOVER)
    (hxid : pkt.xid = dhcp_xid s.netdev)
    (hmt : fetchByte pkt.options DHCP_MESSAGE_TYPE = DHCPOFFER)
    (hr : (dhcp_merge s pkt).response = some r) :
    ((recvEvent s pkt env).1.state = DHCPREQUEST ↔
      (fetchByte r.options DHCP_EB_NO_PROXYDHCP ≠ 0 ∨
       env.now - s.start > PROXYDHCP_WAIT_TIME)) ∧
    (¬(fetchByte r.options DHCP_EB_NO_PROXYDHCP ≠ 0 ∨
       env.now - s.start > PROXYDHCP_WAIT_TIME) →
      recvEvent s pkt env = (dhcp_merge s pkt, Output.none)) ∧
    ((fetchByte r.options DHCP_EB_NO_PROXYDHCP ≠ 0 ∨
       env.now - s.start > PROXYDHCP_WAIT_TIME) →
      ((recvEvent s pkt env).1 =
         { dhcp_merge s pkt with state := DHCPREQUEST,
                                 timerRunning := true } ∧
       (recvEvent s pkt env).2.finished = Option.none ∧
       (recvEvent s pkt env).2.registered = Option.none ∧
       (env.allocOk = true →
         (recvEvent s pkt env).2.sent =
           (create_dhcp_request s.netdev (some r.options)
              DHCP_MIN_LEN).toOption) ∧
       (∀ bp, (recvEvent s pkt env).2.sent = some bp →
          fetchByte bp.options DHCP_MESSAGE_TYPE = DHCPREQUEST))) := by
  have hrecv : recvEvent s pkt env =
      dhcp_rx_resolve (dhcp_merge s pkt) env := by
    unfold recvEvent
    rw [if_neg (by simp [hn])]
    exact dhcp_deliver_accepted s pkt env hxid (Or.inl ⟨hstate, hmt⟩)
  have hres := dhcp_rx_resolve_discover (dhcp_merge s pkt) env r
    (by rw [dhcp_merge_state]; exact hstate) hr
  rw [dhcp_merge_start] at hres
  by_cases hc : fetchByte r.options DHCP_EB_NO_PROXYDHCP ≠ 0 ∨
    env.now - s.start > PROXYDHCP_WAIT_TIME
  · rw [if_pos hc] at hres
    refine ⟨?_, fun hnc => absurd hc hnc, fun _ => ⟨?_, ?_, ?_, ?_, ?_⟩⟩
    · rw [hrecv, hres]
      exact ⟨fun _ => hc, fun _ => rfl⟩
    · rw [hrecv, hres]
      dsimp only
      rw [dhcp_merge_start]
    · rw [hrecv, hres]
    · rw [hrecv, hres]
    · intro ha
      rw [hrecv, hres]
      dsimp only
      set m := dhcp_merge s pkt with hm
      have hnet : m.netdev = s.netdev := by
        rw [hm]; exact dhcp_merge_netdev s pkt
      rw [dhcp_send_request_sent _ env ha]
      simp [hr, hnet]
    · intro bp hbp
      rw [hrecv, hres] at hbp
      dsimp only at hbp
      exact dhcp_send_in_request_state_msgtype _ env r bp hbp rfl hr
  · rw [if_neg hc] at hres
    refine ⟨?_, fun _ => by rw [hrecv, hres], fun hc2 => absurd hc2 hc⟩
    rw [hrecv, hres]
    constructor
    · intro hst
      exfalso
      rw [dhcp_merge_state, hstate] at hst
      exact absurd hst (by decide)
    · intro hc2
      exact absurd hc2 hc

/-- Witness for C3: `offerA` (no flag) inside the wait window keeps the
session in `DHCPDISCOVER`; the same offer after the window has elapsed
moves it to `DHCPREQUEST`. -/
theorem c3_witness :
    recvEvent sessA offerA envA = (dhcp_merge sessA offerA, Output.none) ∧
    (recvEvent sessA offerA envLate).1.state = DHCPREQUEST := by
  constructor
  · exact (c3_discover_transition sessA offerA envA offerA (by decide)
      (by decide) (by decide) (by decide) (by decide)).2.1 (by decide)
  · exact ((c3_discover_transition sessA offerA envLate offerA (by decide)
      (by decide) (by decide) (by decide) (by decide)).1).mpr
      (Or.inr (by decide))

/-! ## Invariants over all reachable sessions -/

/-- A property preserved by every event holds along every event list. -/
theorem foldl_inv (P : DhcpSession → Prop)
    (hstep : ∀ s e, P s → P (stepSession s e)) :
    ∀ (es : List DhcpEvent) (s : DhcpSession), P s →
      P (es.foldl stepSession s) := by
  intro es
  induction es with
  | nil => exact fun s hs => hs
  | cons e es ih => exact fun s hs => ih _ (hstep s e hs)

/-- Every event preserves: a session in `DHCPREQUEST` state holds a
standard response. -/
theorem stepSession_request_inv (s : DhcpSession) (e : DhcpEvent)
    (h : s.state = DHCPREQUEST → s.response.isSome = true) :
    (stepSession s e).state = DHCPREQUEST →
    (stepSession s e).response.isSome = true := by
  cases e with
  | timer fail env =>
      show (timerEvent s fail env).1.state = DHCPREQUEST →
        (timerEvent s fail env).1.response.isSome = true
      unfold timerEvent
      by_cases ht : s.timerRunning = true
      · rw [if_pos ht]
        cases fail with
        | false =>
            rw [dhcp_timer_expired_retry]
            exact h
        | true =>
            unfold dhcp_timer_expired
            rw [if_pos rfl]
            exact h
      · rw [if_neg ht]
        exact h
  | kill =>
      show (killEvent s).1.state = DHCPREQUEST →
        (killEvent s).1.response.isSome = true
      unfold killEvent
      by_cases hnul : s.nullified = true
      · rw [if_pos hnul]; exact h
      · rw [if_neg hnul]; exact h
  | recv pkt env =>
      show (recvEvent s pkt env).1.state = DHCPREQUEST →
        (recvEvent s pkt env).1.response.isSome = true
      unfold recvEvent
      by_cases hnul : s.nullified = true
      · rw [if_pos hnul]; exact h
      · rw [if_neg hnul]
        by_cases hxid : pkt.xid = dhcp_xid s.netdev
        case neg =>
          rw [dhcp_deliver_not_accepted s pkt env (Or.inl hxid)]
          exact h
        case pos =>
        by_cases hacc : (s.state = DHCPDISCOVER ∧
            fetchByte pkt.options DHCP_MESSAGE_TYPE = DHCPOFFER) ∨
          (s.state = DHCPREQUEST ∧
            fetchByte pkt.options DHCP_MESSAGE_TYPE = DHCPACK)
        case neg =>
          rw [dhcp_deliver_not_accepted s pkt env (Or.inr hacc)]
          exact h
        case pos =>
        rw [dhcp_deliver_accepted s pkt env hxid hacc]
        have hms : (dhcp_merge s pkt).state = s.state := dhcp_merge_state s pkt
        cases hrm : (dhcp_merge s pkt).response with
        | none =>
            unfold dhcp_rx_resolve
            rw [hrm]
            dsimp only
            intro hst
            rw [hms] at hst
            have h2 := dhcp_merge_response_isSome s pkt (h hst)
            rw [hrm] at h2
            simp at h2
        | some r =>
            by_cases hd : (dhcp_merge s pkt).state = DHCPDISCOVER
            · rw [dhcp_rx_resolve_discover _ env r hd hrm]
              split
              · dsimp only
                intro _
                rw [hrm]
                rfl
              · dsimp only
                intro hst
                rw [hd] at hst
                exact absurd hst (by decide)
            · by_cases hq : (dhcp_merge s pkt).state = DHCPREQUEST
              · rw [dhcp_rx_resolve_request _ env r hq hrm]
                dsimp only
                intro _
                rw [hrm]
                rfl
              · unfold dhcp_rx_resolve
                rw [hrm]
                dsimp only
                rw [if_neg hd, if_neg hq]
                intro hst
                exact absurd hst hq

/-- Every event preserves: a finished (nullified) session has a stopped
timer. -/
theorem stepSession_finished_inv (s : DhcpSession) (e : DhcpEvent)
    (h : s.nullified = true → s.timerRunning = false) :
    (stepSession s e).nullified = true →
    (stepSession s e).timerRunning = false := by
  cases e with
  | timer fail env =>
      show (timerEvent s fail env).1.nullified = true →
        (timerEvent s fail env).1.timerRunning = false
      unfold timerEvent
      by_cases ht : s.timerRunning = true
      · rw [if_pos ht]
        cases fail with
        | false =>
            rw [dhcp_timer_expired_retry]
            intro hnul
            have := h hnul
            rw [ht] at this
            simp at this
        | true =>
            unfold dhcp_timer_expired
            rw [if_pos rfl]
            intro _
            rfl
      · rw [if_neg ht]
        exact h
  | kill =>
      show (killEvent s).1.nullified = true →
        (killEvent s).1.timerRunning = false
      unfold killEvent
      by_cases hnul : s.nullified = true
      · rw [if_pos hnul]; exact h
      · rw [if_neg hnul]; intro _; rfl
  | recv pkt env =>
      show (recvEvent s pkt env).1.nullified = true →
        (recvEvent s pkt env).1.timerRunning = false
      unfold recvEvent
      by_cases hnul : s.nullified = true
      · rw [if_pos hnul]; exact h
      · rw [if_neg hnul]
        have hsn : s.nullified = false := by simpa using hnul
        by_cases hxid : pkt.xid = dhcp_xid s.netdev
        case neg =>
          rw [dhcp_deliver_not_accepted s pkt env (Or.inl hxid)]
          exact h
        case pos =>
        by_cases hacc : (s.state = DHCPDISCOVER ∧
            fetchByte pkt.options DHCP_MESSAGE_TYPE = DHCPOFFER) ∨
          (s.state = DHCPREQUEST ∧
            fetchByte pkt.options DHCP_MESSAGE_TYPE = DHCPACK)
        case neg =>
          rw [dhcp_deliver_not_accepted s pkt env (Or.inr hacc)]
          exact h
        case pos =>
        rw [dhcp_deliver_accepted s pkt env hxid hacc]
        have hmn : (dhcp_merge s pkt).nullified = false := by
          rw [dhcp_merge_nullified]; exact hsn
        cases hrm : (dhcp_merge s pkt).response with
        | none =>
            unfold dhcp_rx_resolve
            rw [hrm]
            dsimp only
            intro hnl
            rw [hmn] at hnl
            simp at hnl
        | some r =>
            by_cases hd : (dhcp_merge s pkt).state = DHCPDISCOVER
            · rw [dhcp_rx_resolve_discover _ env r hd hrm]
              split
              · dsimp only
                intro hnl
                rw [hmn] at hnl
                simp at hnl
              · dsimp only
                intro hnl
                rw [hmn] at hnl
                simp at hnl
            · by_cases hq : (dhcp_merge s pkt).state = DHCPREQUEST
              · rw [dhcp_rx_resolve_request _ env r hq hrm]
                dsimp only
                intro _
                rfl
              · unfold dhcp_rx_resolve
                rw [hrm]
                dsimp only
                rw [if_neg hd, if_neg hq]
                intro hnl
                rw [hmn] at hnl
                simp at hnl

/-- Claim C9: invariant kept by every event — whenever a reachable session
is in `DHCPREQUEST` state, its standard response slot is non-null, so the
send path's use of the stored standard response as the prior OFFER (the
`assert ( dhcp->response )` in `dhcp_send_request`) is always safe. -/
theorem c9_requesting_has_response (netdev : NetDevice) (now : Nat)
    (es : List DhcpEvent) :
    (runSession netdev now es).state = DHCPREQUEST →
    (runSession netdev now es).response.isSome = true :=
  foldl_inv (fun q => q.state = DHCPREQUEST → q.response.isSome = true)
    stepSession_request_inv es (initSession netdev now)
    (by intro hst; simp [initSession, DHCPDISCOVER, DHCPREQUEST] at hst)

/-- Witness for C9: after an accepted OFFER past the wait window the
session sits in `DHCPREQUEST` state — and indeed holds a response. -/
theorem c9_witness :
    (runSession ndA 50 [DhcpEvent.recv offerA envLate]).response.isSome
      = true :=
  c9_requesting_has_response ndA 50 [DhcpEvent.recv offerA envLate]
    (by decide)

/-- Claim C6: a session is finished exactly once: cancellation from any
non-terminal (non-nullified) state immediately finishes it with
`-ECANCELED`, and once a reachable session has finished (its callback
endpoints nullified, its timer stopped), every further timer, receive or
kill event returns it unchanged with no output. -/
theorem c6_finished_absorbing :
    (∀ s : DhcpSession, s.nullified = false →
       killEvent s = ({ s with nullified := true, timerRunning := false },
         ⟨0, Option.none, Option.none, Option.none, some (-ECANCELED)⟩)) ∧
    (∀ (netdev : NetDevice) (now : Nat) (es : List DhcpEvent)
       (e : DhcpEvent),
       (runSession netdev now es).nullified = true →
       applyEvent (runSession netdev now es) e =
         (runSession netdev now es, Output.none)) := by
  constructor
  · intro s hs
    unfold killEvent
    rw [if_neg (by simp [hs])]
    rfl
  · intro netdev now es e hnul
    have htimer : (runSession netdev now es).timerRunning = false :=
      foldl_inv (fun q => q.nullified = true → q.timerRunning = false)
        stepSession_finished_inv es (initSession netdev now)
        (by intro hn; simp [initSession] at hn) hnul
    cases e with
    | timer fail env =>
        show timerEvent _ fail env = _
        unfold timerEvent
        rw [if_neg (by simp [htimer])]
    | recv pkt env =>
        show recvEvent _ pkt env = _
        unfold recvEvent
        rw [if_pos hnul]
    | kill =>
        show killEvent _ = _
        unfold killEvent
        rw [if_pos hnul]

/-- Witness for C6: cancelling the fresh session reports `-ECANCELED`; a
duplicate kill after a kill has no effect. -/
theorem c6_witness :
    (killEvent sessA).2.finished = some (-ECANCELED) ∧
    applyEvent (runSession ndA 50 [DhcpEvent.kill]) DhcpEvent.kill =
      (runSession ndA 50 [DhcpEvent.kill], Output.none) := by
  refine ⟨?_, c6_finished_absorbing.2 ndA 50 [DhcpEvent.kill] DhcpEvent.kill
    (by decide)⟩
  rw [c6_finished_absorbing.1 sessA (by decide)]

end DhcpModel
